import Mathlib

/-!
Verification of the request-handling contract of `serve.py`, the local
development HTTP server of the lx-hw-db repository.

The Python handlers are shallowly embedded as pure Lean functions:

* JSON values are the inductive `Json` (numbers are modelled as integers;
  none of the verified properties involve floating point).
* A handler's result is a `Response` (status, headers, body) paired with the
  list of `print` side effects (`LogEntry`).
* Python exceptions relevant to the handlers are the inductive `PyError`;
  fallible evaluation is `Except PyError`.
* The contents of the two data files are a `DataFile`: either opening/reading
  /parsing raised some exception, or the file was present with raw text
  `raw` that `json.load` parsed to `j`.
-/

/-- JSON values as produced by Python's `json.loads`.  Object fields are kept
in insertion order, as Python dicts do; numbers are modelled as integers. -/
inductive Json where
  | null
  | bool (b : Bool)
  | num (n : Int)
  | str (s : String)
  | arr (xs : List Json)
  | obj (kvs : List (String × Json))
deriving Repr

/-- Python exceptions that the handlers of `serve.py` can raise or catch. -/
inductive PyError where
  | fileNotFoundError
  | attributeError
  | valueError
  | typeError
  | keyError
  | unicodeDecodeError
  | jsonDecodeError
  | osError (msg : String)
deriving DecidableEq, Repr

/-- Hex digit character (lowercase), for `\uXXXX` escapes. -/
def hexDigit (n : Nat) : Char :=
  if n < 10 then Char.ofNat (48 + n) else Char.ofNat (87 + n)

/-- Four-digit lowercase hex rendering of `n < 0x10000`. -/
def hex4 (n : Nat) : String :=
  String.mk [hexDigit (n / 4096 % 16), hexDigit (n / 256 % 16),
             hexDigit (n / 16 % 16), hexDigit (n % 16)]

/-- Escaping of one character exactly as Python's `json.dumps` with its
default `ensure_ascii=True`: quote, backslash and the short control escapes
get two-character forms, every other control character and every character
above U+007E becomes `\uXXXX` (a surrogate pair beyond U+FFFF). -/
def escapeJsonChar (c : Char) : String :=
  if c = '"' then "\\\""
  else if c = '\\' then "\\\\"
  else if c = '\n' then "\\n"
  else if c = '\r' then "\\r"
  else if c = '\t' then "\\t"
  else if c.toNat = 8 then "\\b"
  else if c.toNat = 12 then "\\f"
  else if c.toNat < 32 || c.toNat ≥ 127 then
    if c.toNat < 65536 then "\\u" ++ hex4 c.toNat
    else
      let v := c.toNat - 65536
      "\\u" ++ hex4 (55296 + v / 1024) ++ "\\u" ++ hex4 (56320 + v % 1024)
  else String.mk [c]

/-- A JSON string literal as `json.dumps` prints it. -/
def dumpsString (s : String) : String :=
  "\"" ++ String.join (s.toList.map escapeJsonChar) ++ "\""

mutual

/-- Serialization exactly as Python's `json.dumps` with default arguments:
item separator `", "`, key separator `": "`, `ensure_ascii=True`. -/
def dumps : Json → String
  | Json.null => "null"
  | Json.bool true => "true"
  | Json.bool false => "false"
  | Json.num n => toString n
  | Json.str s => dumpsString s
  | Json.arr xs => "[" ++ dumpsArr xs ++ "]"
  | Json.obj kvs => "\x7b" ++ dumpsObj kvs ++ "\x7d"

/-- Comma-joined array elements. -/
def dumpsArr : List Json → String
  | [] => ""
  | [x] => dumps x
  | x :: y :: rest => dumps x ++ ", " ++ dumpsArr (y :: rest)

/-- Comma-joined `"key": value` object entries. -/
def dumpsObj : List (String × Json) → String
  | [] => ""
  | [(k, v)] => dumpsString k ++ ": " ++ dumps v
  | (k, v) :: p :: rest => dumpsString k ++ ": " ++ dumps v ++ ", " ++ dumpsObj (p :: rest)

end

example : dumps (Json.obj [("a", Json.num 1)]) = "\x7b\"a\": 1\x7d" := by rfl

example : dumps (Json.obj [("title", Json.str "Enable iommu"), ("n", Json.arr [Json.num (-2), Json.null])])
    = "\x7b\"title\": \"Enable iommu\", \"n\": [-2, null]\x7d" := by rfl

/-- Python `int(s)` on a string: strip surrounding (ASCII) whitespace, then an
optional sign followed by a nonempty run of decimal digits; anything else
raises `ValueError` (`none`). -/
def natOfDigits (cs : List Char) : Option Nat :=
  match cs with
  | [] => none
  | _ => if cs.all Char.isDigit
         then some (cs.foldl (fun a c => a * 10 + (c.toNat - 48)) 0)
         else none

/-- ASCII whitespace, as stripped by Python's `int`. -/
def isPyWs (c : Char) : Bool :=
  c = ' ' || c = '\t' || c = '\n' || c = '\r'

def pyInt (s : String) : Option Int :=
  let cs := (s.toList.dropWhile isPyWs).reverse.dropWhile isPyWs |>.reverse
  match cs with
  | '-' :: rest => (natOfDigits rest).map (fun n => -(n : Int))
  | '+' :: rest => (natOfDigits rest).map (fun n => (n : Int))
  | rest => (natOfDigits rest).map (fun n => (n : Int))

example : pyInt "10485761" = some 10485761 := by rfl
example : pyInt " -42 " = some (-42) := by rfl
example : pyInt "abc" = none := by rfl
example : pyInt "" = none := by rfl

/-- The path component that `urllib.parse.urlparse` extracts from an
origin-form request target (`self.path` of the handler): everything before
the first `?` (query) or `#` (fragment). -/
def urlparse_path (url : String) : String :=
  String.mk (url.toList.takeWhile (fun c => c != '?' && c != '#'))

example : urlparse_path "/api/hardware?x=1" = "/api/hardware" := by rfl
example : urlparse_path "/index.html" = "/index.html" := by rfl

/-- `leadsWith pre cs`: the character list `cs` starts with `pre`. -/
def leadsWith : List Char → List Char → Bool
  | [], _ => true
  | _ :: _, [] => false
  | a :: as, b :: bs => a == b && leadsWith as bs

/-- Python `path.startswith(pre)`, by code points. -/
def strLeadsWith (pre s : String) : Bool :=
  leadsWith pre.toList s.toList

example : strLeadsWith "/api/" "/api/hardware" = true := by rfl
example : strLeadsWith "/api/" "/index.html" = false := by rfl

/-- Key lookup in a parsed JSON object (Python dict lookup; `json.loads`
produces distinct keys, so association-list lookup is the dict lookup). -/
def assoc : List (String × Json) → String → Option Json
  | [], _ => none
  | (k, v) :: rest, key => if k = key then some v else assoc rest key

/-- `d.get(key, default)` on a parsed JSON object. -/
def assocD (kvs : List (String × Json)) (key : String) (d : Json) : Json :=
  match assoc kvs key with
  | some v => v
  | none => d

/-- Python `x.get(key, default)`: only dicts have `.get`; on any other value
the attribute lookup raises `AttributeError`. -/
def pyGet (x : Json) (key : String) (d : Json) : Except PyError Json :=
  match x with
  | Json.obj kvs => Except.ok (assocD kvs key d)
  | _ => Except.error PyError.attributeError

/-- Python `x[key]` with a string key: `KeyError` for a dict without the key,
`TypeError` when `x` is not a dict. -/
def pySubscript (x : Json) (key : String) : Except PyError Json :=
  match x with
  | Json.obj kvs =>
    match assoc kvs key with
    | some v => Except.ok v
    | none => Except.error PyError.keyError
  | _ => Except.error PyError.typeError

/-- Numeric view: Python `bool` is an `int` subtype, so `True` adds and
compares as `1`. -/
def toIntNum : Json → Option Int
  | Json.num n => some n
  | Json.bool b => some (if b then 1 else 0)
  | _ => none

/-- Python `a + b` on the value shapes the statistics computation can meet:
numbers (and bools) add as integers, strings and lists concatenate, every
other combination raises `TypeError`. -/
def pyAdd (a b : Json) : Except PyError Json :=
  match toIntNum a, toIntNum b with
  | some x, some y => Except.ok (Json.num (x + y))
  | _, _ =>
    match a, b with
    | Json.str s, Json.str t => Except.ok (Json.str (s ++ t))
    | Json.arr xs, Json.arr ys => Except.ok (Json.arr (xs ++ ys))
    | _, _ => Except.error PyError.typeError

/-- Lexicographic comparison of character lists by code point, Python's
string ordering. -/
def charListLt : List Char → List Char → Bool
  | [], [] => false
  | [], _ :: _ => true
  | _ :: _, [] => false
  | a :: as, b :: bs => if a < b then true else if b < a then false else charListLt as bs

/-- Python `s < t` on strings: lexicographic by code point. -/
def pyStrLt (s t : String) : Bool :=
  charListLt s.toList t.toList

/-- Python `max(a, b)` (`b if b > a else a`) on numbers/bools and on strings,
where string comparison is lexicographic by code point; other combinations
raise `TypeError`.  (Comparable shapes the handlers never meet, such as a
pair of lists, are conservatively mapped to `TypeError` as well; no verified
property exercises them.) -/
def pyMax (a b : Json) : Except PyError Json :=
  match toIntNum a, toIntNum b with
  | some x, some y => Except.ok (if x < y then b else a)
  | _, _ =>
    match a, b with
    | Json.str s, Json.str t => Except.ok (Json.str (if pyStrLt s t then t else s))
    | _, _ => Except.error PyError.typeError

example : pyMax (Json.str "2024-01-05") (Json.str "2024-11-02") = Except.ok (Json.str "2024-11-02") := by rfl
example : pyMax (Json.str "b") (Json.str "a") = Except.ok (Json.str "b") := by rfl

/-- Response bodies.  `json` is an explicit `wfile.write` of a serialized
string; `errorPage` is the standard-library HTML error page that `send_error`
renders from the status code and message; `staticFile` is a static asset. -/
inductive RBody where
  | json (s : String)
  | errorPage (code : Nat) (msg : String)
  | staticFile (s : String)
  | empty
deriving DecidableEq, Repr

/-- A single HTTP response: status line, headers in emission order, body. -/
structure Response where
  status : Nat
  headers : List (String × String)
  body : RBody
deriving DecidableEq, Repr

/-- The three headers the overridden `end_headers` queues on every response
(`serve.py` lines 17-22). -/
def cors_headers : List (String × String) :=
  [("Access-Control-Allow-Origin", "*"),
   ("Access-Control-Allow-Methods", "GET, POST, OPTIONS"),
   ("Access-Control-Allow-Headers", "Content-Type")]

/-- The overridden `end_headers`: whatever headers the handler has queued are
flushed with the three CORS headers appended (the override queues them and
then delegates to the base class flush).  Every response the server emits
passes through this function. -/
def end_headers (queued : List (String × String)) : List (String × String) :=
  queued ++ cors_headers

/-- `send_response(200)`, `send_header('Content-Type','application/json')`,
`end_headers()`, `wfile.write(...)` — the success path shared by the API
handlers. -/
def jsonResponse (s : String) : Response :=
  { status := 200,
    headers := end_headers [("Content-Type", "application/json")],
    body := RBody.json s }

/-- The base class's `send_error(code, message)`: an error status line, the
standard error-page headers, and an HTML body rendered from code and message
(flushed through the overridden `end_headers`). -/
def send_error (code : Nat) (msg : String) : Response :=
  { status := code,
    headers := end_headers [("Content-Type", "text/html;charset=utf-8"),
                            ("Connection", "close")],
    body := RBody.errorPage code msg }

/-- `do_OPTIONS`: `send_response(200)` followed by `end_headers()`; no body. -/
def do_OPTIONS : Response :=
  { status := 200, headers := end_headers [], body := RBody.empty }

/-- One `print(...)` call of a handler, written to the server's standard
output stream.  Entries carry the dynamic values the f-strings interpolate. -/
inductive LogEntry where
  | receivedHardware (idVal : Json)
  | receivedTip (titleVal : Json)
  | postError (e : PyError)
  | hwServeError (e : PyError)
  | tipsServeError (e : PyError)
  | statsServeError (e : PyError)
deriving Repr

/-- What opening and `json.load`-ing one of the two data files yields:
either some exception was raised (`FileNotFoundError` when the file is
missing, `json.JSONDecodeError` on malformed contents, an `OSError` on other
I/O failures), or the file held the raw text `raw` which parsed to `j`. -/
inductive DataFile where
  | readError (e : PyError)
  | parsed (raw : String) (j : Json)

/-- `serve_hardware_database` (serve.py lines 86-101): read and re-serialize
`data/hardware-database.json`; `FileNotFoundError` is caught by its own
clause (404 with a named message), any other exception is printed and mapped
to a generic 500. -/
def serve_hardware_database : DataFile → Response × List LogEntry
  | DataFile.readError PyError.fileNotFoundError =>
    (send_error 404 "Hardware database not found", [])
  | DataFile.readError e =>
    (send_error 500 "Error loading hardware database", [LogEntry.hwServeError e])
  | DataFile.parsed _ j => (jsonResponse (dumps j), [])

/-- `serve_configuration_tips` (serve.py lines 103-118), identical shape for
`data/configuration-tips.json`. -/
def serve_configuration_tips : DataFile → Response × List LogEntry
  | DataFile.readError PyError.fileNotFoundError =>
    (send_error 404 "Configuration tips database not found", [])
  | DataFile.readError e =>
    (send_error 500 "Error loading configuration tips", [LogEntry.tipsServeError e])
  | DataFile.parsed _ j => (jsonResponse (dumps j), [])

/-- The `combined_stats` dict literal of `serve_statistics` (serve.py lines
131-141), evaluated in Python's left-to-right order: `.get` calls for the
pass-through blocks, then the subscript chains, the addition, and `max`. -/
def combined_stats (hardware_data tips_data : Json) : Except PyError Json := do
  let hblock ← pyGet hardware_data "statistics" (Json.obj [])
  let tblock ← pyGet tips_data "statistics" (Json.obj [])
  let hstats ← pySubscript hardware_data "statistics"
  let hTotal ← pySubscript hstats "total_hardware"
  let tstats ← pySubscript tips_data "statistics"
  let tTotal ← pySubscript tstats "total_tips"
  let total ← pyAdd hTotal tTotal
  let hstats2 ← pySubscript hardware_data "statistics"
  let hLu ← pySubscript hstats2 "last_updated"
  let tstats2 ← pySubscript tips_data "statistics"
  let tLu ← pySubscript tstats2 "last_updated"
  let lu ← pyMax hLu tLu
  Except.ok (Json.obj
    [("hardware", hblock), ("tips", tblock),
     ("combined", Json.obj [("total_entries", total), ("last_updated", lu)])])

/-- `serve_statistics` (serve.py lines 120-150): both files are read inside
one `try` whose only handler is the generic `except Exception` — a missing
file is not special-cased here, every failure (including `FileNotFoundError`)
is printed and answered with 500.  The hardware file is opened first. -/
def serve_statistics (hw tips : DataFile) : Response × List LogEntry :=
  match hw with
  | DataFile.readError e =>
    (send_error 500 "Error loading statistics", [LogEntry.statsServeError e])
  | DataFile.parsed _ h =>
    match tips with
    | DataFile.readError e =>
      (send_error 500 "Error loading statistics", [LogEntry.statsServeError e])
    | DataFile.parsed _ t =>
      match combined_stats h t with
      | Except.ok j => (jsonResponse (dumps j), [])
      | Except.error e =>
        (send_error 500 "Error loading statistics", [LogEntry.statsServeError e])

/-- `handle_api_request` (serve.py lines 47-58): route a GET on an `/api/`
path to one of the three read handlers, 404 otherwise. -/
def handle_api_request (path : String) (hw tips : DataFile) : Response × List LogEntry :=
  if path = "/api/hardware" then serve_hardware_database hw
  else if path = "/api/tips" then serve_configuration_tips tips
  else if path = "/api/statistics" then serve_statistics hw tips
  else (send_error 404 ("API endpoint not found: " ++ path), [])

/-- The server's observable file-system state: the two data files and the
static asset tree (url path to file contents). -/
structure ServerFS where
  hw : DataFile
  tips : DataFile
  staticFiles : String → Option String

/-- Modelled from the spec: the inherited `SimpleHTTPRequestHandler.do_GET`
is standard-library code, not part of this repository.  Per the spec, a
non-`/api/` GET serves the file at the request path from the document root
("query string (unused beyond parsing)"; the library resolves the path
component only), standard file-not-found gives HTTP 404, and every response
flushes its headers through the overridden `end_headers`. -/
def super_do_GET (staticFiles : String → Option String) (url : String) : Response :=
  match staticFiles (urlparse_path url) with
  | some content =>
    { status := 200,
      headers := end_headers [("Content-Type", "application/octet-stream")],
      body := RBody.staticFile content }
  | none => send_error 404 "File not found"

/-- `do_GET` (serve.py lines 28-36): parse the request target, dispatch
`/api/` paths to `handle_api_request`, everything else to the inherited
static file handler. -/
def do_GET (fs : ServerFS) (url : String) : Response × List LogEntry :=
  if strLeadsWith "/api/" (urlparse_path url) then
    handle_api_request (urlparse_path url) fs.hw fs.tips
  else (super_do_GET fs.staticFiles url, [])

/-- The Python source computes the fallback submission id as
`f'hw_{int(os.time())}'` (serve.py lines 166 and 187).  The `os` module has
no attribute `time` — the wall-clock function is `time.time` — so evaluating
`os.time()` raises `AttributeError` unconditionally. -/
def os_time : Except PyError Int :=
  Except.error PyError.attributeError

/-- `handle_hardware_submission` (serve.py lines 152-172).  The first
statement prints `data.get('id', 'unknown')` — an `AttributeError` already
if `data` is not a dict.  Building the response dict then evaluates the
`.get` default argument `f'hw_{int(os.time())}'` eagerly, even when the
payload has an `id`, so the construction raises `AttributeError` before
`send_response(200)` is reached; the send of the success acknowledgement is
dead code as written. -/
def handle_hardware_submission (data : Json) : Except PyError Response × List LogEntry :=
  match data with
  | Json.obj kvs =>
    let log := [LogEntry.receivedHardware (assocD kvs "id" (Json.str "unknown"))]
    match os_time with
    | Except.error e => (Except.error e, log)
    | Except.ok ts =>
      (Except.ok (jsonResponse (dumps (Json.obj
        [("status", Json.str "success"),
         ("message", Json.str "Hardware report received and will be processed"),
         ("id", assocD kvs "id" (Json.str ("hw_" ++ toString ts)))]))), log)
  | _ => (Except.error PyError.attributeError, [])

/-- `handle_tip_submission` (serve.py lines 174-193), same shape with the
tip message and the `tip_` fallback prefix, printing the `title` field. -/
def handle_tip_submission (data : Json) : Except PyError Response × List LogEntry :=
  match data with
  | Json.obj kvs =>
    let log := [LogEntry.receivedTip (assocD kvs "title" (Json.str "untitled"))]
    match os_time with
    | Except.error e => (Except.error e, log)
    | Except.ok ts =>
      (Except.ok (jsonResponse (dumps (Json.obj
        [("status", Json.str "success"),
         ("message", Json.str "Configuration tip submitted for moderation"),
         ("id", assocD kvs "id" (Json.str ("tip_" ++ toString ts)))]))), log)
  | _ => (Except.error PyError.attributeError, [])

/-- What `rfile.read(content_length).decode('utf-8')` followed by
`json.loads` yields for a given request body: the bytes are not valid UTF-8
(`UnicodeDecodeError`), or they decode to text `json.loads` rejects
(`json.JSONDecodeError`), or they parse to a JSON value. -/
inductive PostBody where
  | notUtf8
  | invalidJson (s : String)
  | jsonOf (j : Json)

/-- The result of one handler invocation: a response was written, or an
exception escaped the handler uncaught (no status line is ever produced on
that connection by the handler). -/
inductive Outcome where
  | resp (r : Response)
  | uncaught (e : PyError)
deriving Repr

/-- `handle_api_post` (serve.py lines 60-84).  `int(headers.get(...))` runs
before the `try` block, so a non-integer `content-length` header value
raises an uncaught `ValueError`.  An in-range length proceeds to read the
body: a `UnicodeDecodeError` falls to the generic `except Exception` (500),
a `json.JSONDecodeError` to the 400 clause, and a parsed body is dispatched
on the path; exceptions raised inside the submission handlers are caught by
the same generic clause and printed. -/
def handle_api_post (path : String) (clHeader : Option String) (body : PostBody) :
    Outcome × List LogEntry :=
  match (match clHeader with
         | none => some (0 : Int)
         | some s => pyInt s) with
  | none => (Outcome.uncaught PyError.valueError, [])
  | some content_length =>
    if content_length > 10 * 1024 * 1024 then
      (Outcome.resp (send_error 413 "Request too large"), [])
    else
      match body with
      | PostBody.notUtf8 =>
        (Outcome.resp (send_error 500 "Internal server error"),
         [LogEntry.postError PyError.unicodeDecodeError])
      | PostBody.invalidJson _ =>
        (Outcome.resp (send_error 400 "Invalid JSON data"), [])
      | PostBody.jsonOf data =>
        if path = "/api/hardware/submit" then
          match handle_hardware_submission data with
          | (Except.ok r, log) => (Outcome.resp r, log)
          | (Except.error e, log) =>
            (Outcome.resp (send_error 500 "Internal server error"),
             log ++ [LogEntry.postError e])
        else if path = "/api/tips/submit" then
          match handle_tip_submission data with
          | (Except.ok r, log) => (Outcome.resp r, log)
          | (Except.error e, log) =>
            (Outcome.resp (send_error 500 "Internal server error"),
             log ++ [LogEntry.postError e])
        else
          (Outcome.resp (send_error 404 ("API endpoint not found: " ++ path)), [])

/-- `do_POST` (serve.py lines 38-45): `/api/` paths go to `handle_api_post`
with the parsed path, anything else is a plain 404. -/
def do_POST (url : String) (clHeader : Option String) (body : PostBody) :
    Outcome × List LogEntry :=
  if strLeadsWith "/api/" (urlparse_path url) then
    handle_api_post (urlparse_path url) clHeader body
  else (Outcome.resp (send_error 404 "Not Found"), [])

/-! ## Header invariants -/

/-- A response carries the three CORS headers. -/
def hasCors (r : Response) : Prop :=
  ("Access-Control-Allow-Origin", "*") ∈ r.headers ∧
  ("Access-Control-Allow-Methods", "GET, POST, OPTIONS") ∈ r.headers ∧
  ("Access-Control-Allow-Headers", "Content-Type") ∈ r.headers

/-- `hasCors` lifted to handler outcomes; an uncaught exception produces no
response at all, so there is nothing to require of it. -/
def outcomeCors : Outcome → Prop
  | Outcome.resp r => hasCors r
  | Outcome.uncaught _ => True

theorem hasCors_of_end_headers (s : Nat) (q : List (String × String)) (b : RBody) :
    hasCors { status := s, headers := end_headers q, body := b } := by
  refine ⟨?_, ?_, ?_⟩ <;> simp [end_headers, cors_headers]

theorem hasCors_jsonResponse (s : String) : hasCors (jsonResponse s) :=
  hasCors_of_end_headers _ _ _

theorem hasCors_send_error (c : Nat) (m : String) : hasCors (send_error c m) :=
  hasCors_of_end_headers _ _ _

theorem hasCors_do_OPTIONS : hasCors do_OPTIONS :=
  hasCors_of_end_headers _ _ _

theorem hasCors_super_do_GET (sf : String → Option String) (url : String) :
    hasCors (super_do_GET sf url) := by
  unfold super_do_GET
  cases sf (urlparse_path url) with
  | some c => exact hasCors_of_end_headers _ _ _
  | none => exact hasCors_send_error _ _

theorem hasCors_serve_hardware_database (f : DataFile) :
    hasCors (serve_hardware_database f).1 := by
  cases f with
  | readError e => cases e <;> exact hasCors_send_error _ _
  | parsed raw j => exact hasCors_jsonResponse _

theorem hasCors_serve_configuration_tips (f : DataFile) :
    hasCors (serve_configuration_tips f).1 := by
  cases f with
  | readError e => cases e <;> exact hasCors_send_error _ _
  | parsed raw j => exact hasCors_jsonResponse _

theorem hasCors_serve_statistics (hw tips : DataFile) :
    hasCors (serve_statistics hw tips).1 := by
  cases hw with
  | readError e => exact hasCors_send_error _ _
  | parsed raw h =>
    cases tips with
    | readError e => exact hasCors_send_error _ _
    | parsed raw2 t =>
      simp only [serve_statistics]
      cases combined_stats h t with
      | ok j => exact hasCors_jsonResponse _
      | error e => exact hasCors_send_error _ _

theorem hasCors_handle_api_request (p : String) (hw tips : DataFile) :
    hasCors (handle_api_request p hw tips).1 := by
  unfold handle_api_request
  split
  · exact hasCors_serve_hardware_database _
  split
  · exact hasCors_serve_configuration_tips _
  split
  · exact hasCors_serve_statistics _ _
  · exact hasCors_send_error _ _

theorem handle_hardware_submission_fst (d : Json) :
    (handle_hardware_submission d).1 = Except.error PyError.attributeError := by
  cases d <;> rfl

theorem handle_tip_submission_fst (d : Json) :
    (handle_tip_submission d).1 = Except.error PyError.attributeError := by
  cases d <;> rfl

theorem outcomeCors_handle_api_post (p : String) (clh : Option String) (body : PostBody) :
    outcomeCors (handle_api_post p clh body).1 := by
  unfold handle_api_post
  split
  · trivial
  · split
    · exact hasCors_send_error _ _
    · split
      · exact hasCors_send_error _ _
      · exact hasCors_send_error _ _
      · rename_i data
        split
        · rcases hsub : handle_hardware_submission data with ⟨x, log⟩
          have hx := handle_hardware_submission_fst data
          rw [hsub] at hx
          dsimp only at hx
          subst hx
          exact hasCors_send_error _ _
        · split
          · rcases hsub : handle_tip_submission data with ⟨x, log⟩
            have hx := handle_tip_submission_fst data
            rw [hsub] at hx
            dsimp only at hx
            subst hx
            exact hasCors_send_error _ _
          · exact hasCors_send_error _ _

theorem hasCors_do_GET (fs : ServerFS) (url : String) : hasCors (do_GET fs url).1 := by
  unfold do_GET
  split
  · exact hasCors_handle_api_request _ _ _
  · exact hasCors_super_do_GET _ _

theorem outcomeCors_do_POST (url : String) (clh : Option String) (body : PostBody) :
    outcomeCors (do_POST url clh body).1 := by
  unfold do_POST
  split
  · exact outcomeCors_handle_api_post _ _ _
  · exact hasCors_send_error _ _

/-! ## Claims -/

/-- C7: every HTTP response the server sends — success, error (4xx/5xx), and
OPTIONS preflight alike — carries the three headers
`Access-Control-Allow-Origin: *`, `Access-Control-Allow-Methods: GET, POST,
OPTIONS`, and `Access-Control-Allow-Headers: Content-Type`: for every
file-system state, GET target, and POST request, any response produced by
`do_GET`, `do_POST` or `do_OPTIONS` satisfies `hasCors`. -/
theorem cors_headers_on_every_response (fs : ServerFS) (gurl purl : String)
    (clh : Option String) (body : PostBody) :
    hasCors (do_GET fs gurl).1 ∧ outcomeCors (do_POST purl clh body).1 ∧ hasCors do_OPTIONS :=
  ⟨hasCors_do_GET fs gurl, outcomeCors_do_POST purl clh body, hasCors_do_OPTIONS⟩

/-- C1 (code bug): the spec's example — POST `/api/tips/submit` with body
`\x7b"title":"Enable iommu"\x7d` — does not yield the promised 200 success
acknowledgement.  Building the acknowledgement dict evaluates the `.get`
default `f'tip_{int(os.time())}'` eagerly and `os.time` does not exist, so
the handler raises `AttributeError`, the generic `except Exception` clause
answers 500 "Internal server error", and the same happens on the hardware
endpoint even when the payload carries its own `id`. -/
theorem submission_returns_500_not_success :
    handle_api_post "/api/tips/submit" (some "28")
        (PostBody.jsonOf (Json.obj [("title", Json.str "Enable iommu")])) =
      (Outcome.resp (send_error 500 "Internal server error"),
       [LogEntry.receivedTip (Json.str "Enable iommu"),
        LogEntry.postError PyError.attributeError]) ∧
    handle_api_post "/api/hardware/submit" (some "21")
        (PostBody.jsonOf (Json.obj [("id", Json.str "custom-id")])) =
      (Outcome.resp (send_error 500 "Internal server error"),
       [LogEntry.receivedHardware (Json.str "custom-id"),
        LogEntry.postError PyError.attributeError]) ∧
    (send_error 500 "Internal server error").status ≠ 200 :=
  ⟨rfl, rfl, by decide⟩

/-- C9: when the `content-length` header is present but not a decimal integer
string, `int(...)` raises `ValueError` before the `try` block is entered, so
the exception escapes `handle_api_post` uncaught and the handler produces no
HTTP status at all. -/
theorem bad_content_length_uncaught (path s : String) (body : PostBody)
    (h : pyInt s = none) :
    handle_api_post path (some s) body = (Outcome.uncaught PyError.valueError, []) := by
  unfold handle_api_post
  dsimp only
  rw [h]

theorem bad_content_length_uncaught_witness :
    handle_api_post "/api/hardware/submit" (some "abc") (PostBody.jsonOf Json.null) =
      (Outcome.uncaught PyError.valueError, []) :=
  bad_content_length_uncaught "/api/hardware/submit" "abc" (PostBody.jsonOf Json.null) (by rfl)

/-- C4: a POST to any `/api/` path whose `content-length` parses to more than
10 MiB is answered 413 "Request too large", and the result does not depend
on the request body at all — the handler returns before the body is read or
parsed. -/
theorem oversized_post_rejected_before_read (path s : String) (n : Int)
    (body body2 : PostBody)
    (hcl : pyInt s = some n) (hbig : n > 10 * 1024 * 1024) :
    handle_api_post path (some s) body =
      (Outcome.resp (send_error 413 "Request too large"), []) ∧
    handle_api_post path (some s) body = handle_api_post path (some s) body2 := by
  have key : ∀ b : PostBody, handle_api_post path (some s) b =
      (Outcome.resp (send_error 413 "Request too large"), []) := by
    intro b
    unfold handle_api_post
    dsimp only
    rw [hcl]
    dsimp only
    rw [if_pos hbig]
  exact ⟨key body, (key body).trans (key body2).symm⟩

theorem oversized_post_rejected_before_read_witness :
    handle_api_post "/api/hardware/submit" (some "10485761") (PostBody.jsonOf Json.null) =
      (Outcome.resp (send_error 413 "Request too large"), []) ∧
    handle_api_post "/api/hardware/submit" (some "10485761") (PostBody.jsonOf Json.null) =
      handle_api_post "/api/hardware/submit" (some "10485761") PostBody.notUtf8 :=
  oversized_post_rejected_before_read "/api/hardware/submit" "10485761" 10485761
    (PostBody.jsonOf Json.null) PostBody.notUtf8 (by rfl) (by decide)

/-- C6 counterexample: a POST body that is not valid UTF-8 (so in particular
not valid UTF-8 JSON) is not answered 400 "Invalid JSON data" — the
`UnicodeDecodeError` raised by `.decode('utf-8')` is not a
`json.JSONDecodeError`, falls to the generic `except Exception` clause, and
is answered 500 (with a log line, i.e. a side effect). -/
theorem non_utf8_post_not_400 :
    handle_api_post "/api/tips/submit" (some "3") PostBody.notUtf8 =
      (Outcome.resp (send_error 500 "Internal server error"),
       [LogEntry.postError PyError.unicodeDecodeError]) ∧
    (send_error 500 "Internal server error").status ≠ 400 :=
  ⟨rfl, by decide⟩

/-- C6 (amended): within the size cap, a POST body that is valid UTF-8 but
not valid JSON is answered 400 "Invalid JSON data" with no side effect
(empty log); a body that is not valid UTF-8 is answered 500 "Internal server
error" with the error logged. -/
theorem invalid_body_responses (path s bs : String) (n : Int)
    (hcl : pyInt s = some n) (hsz : n ≤ 10 * 1024 * 1024) :
    handle_api_post path (some s) (PostBody.invalidJson bs) =
      (Outcome.resp (send_error 400 "Invalid JSON data"), []) ∧
    handle_api_post path (some s) PostBody.notUtf8 =
      (Outcome.resp (send_error 500 "Internal server error"),
       [LogEntry.postError PyError.unicodeDecodeError]) := by
  have hng : ¬ n > 10 * 1024 * 1024 := not_lt.mpr hsz
  constructor <;> (unfold handle_api_post; dsimp only; rw [hcl]; dsimp only; rw [if_neg hng])

theorem invalid_body_responses_witness :
    handle_api_post "/api/tips/submit" (some "8") (PostBody.invalidJson "not json") =
      (Outcome.resp (send_error 400 "Invalid JSON data"), []) ∧
    handle_api_post "/api/tips/submit" (some "8") PostBody.notUtf8 =
      (Outcome.resp (send_error 500 "Internal server error"),
       [LogEntry.postError PyError.unicodeDecodeError]) :=
  invalid_body_responses "/api/tips/submit" "8" "not json" 8 (by rfl) (by decide)

/-- C5 counterexample: a POST to an unknown `/api/` path is NOT answered 404
regardless of the request body — with a malformed body the JSON parse runs
before the path dispatch and the response is 400. -/
theorem unknown_endpoint_not_404_on_bad_body :
    do_POST "/api/unknown" (some "5") (PostBody.invalidJson "xxxxx") =
      (Outcome.resp (send_error 400 "Invalid JSON data"), []) ∧
    (send_error 400 "Invalid JSON data").status ≠ 404 :=
  ⟨rfl, by decide⟩

/-- C5 (amended): a GET whose path component starts with `/api/` and is none
of the five endpoints is answered 404 with the descriptive message; a POST
to such a path is answered the same 404 provided the `content-length` is
within the cap and the body parses as UTF-8 JSON (a malformed body yields
400 and an oversized one 413 instead, before the path is consulted). -/
theorem unknown_api_endpoint_404 (fs : ServerFS) (url s : String) (n : Int) (j : Json)
    (hapi : strLeadsWith "/api/" (urlparse_path url) = true)
    (hne : urlparse_path url ∉ (["/api/hardware", "/api/tips", "/api/statistics",
        "/api/hardware/submit", "/api/tips/submit"] : List String))
    (hcl : pyInt s = some n) (hsz : n ≤ 10 * 1024 * 1024) :
    do_GET fs url =
      (send_error 404 ("API endpoint not found: " ++ urlparse_path url), []) ∧
    do_POST url (some s) (PostBody.jsonOf j) =
      (Outcome.resp (send_error 404 ("API endpoint not found: " ++ urlparse_path url)), []) := by
  simp only [List.mem_cons, List.not_mem_nil, or_false, not_or] at hne
  obtain ⟨h1, h2, h3, h4, h5⟩ := hne
  have hng : ¬ n > 10 * 1024 * 1024 := not_lt.mpr hsz
  constructor
  · unfold do_GET
    rw [if_pos hapi]
    unfold handle_api_request
    rw [if_neg h1, if_neg h2, if_neg h3]
  · unfold do_POST
    rw [if_pos hapi]
    unfold handle_api_post
    dsimp only
    rw [hcl]
    dsimp only
    rw [if_neg hng]
    rw [if_neg h4, if_neg h5]

/-- An observable file-system state with both data files absent and no
static assets, for concrete instantiations. -/
def fsEmpty : ServerFS :=
  ⟨DataFile.readError PyError.fileNotFoundError,
   DataFile.readError PyError.fileNotFoundError, fun _ => none⟩

theorem unknown_api_endpoint_404_witness :
    do_GET fsEmpty "/api/unknown" =
      (send_error 404 ("API endpoint not found: " ++ urlparse_path "/api/unknown"), []) ∧
    do_POST "/api/unknown" (some "2") (PostBody.jsonOf Json.null) =
      (Outcome.resp (send_error 404 ("API endpoint not found: " ++ urlparse_path "/api/unknown")), []) :=
  unknown_api_endpoint_404 fsEmpty "/api/unknown" "2" 2 Json.null
    (by rfl) (by decide) (by rfl) (by decide)

/-- C3 counterexample: the body `GET /api/hardware` returns is not
byte-identical to the file contents — `serve.py` re-serializes the parsed
document with `json.dumps`, which normalizes whitespace.  The well-formed
file text `\x7b"a":1\x7d` (no space) parses to `\x7b"a": 1\x7d` under the
default separators, so the served body differs from the file. -/
theorem hardware_body_not_byte_identical :
    (serve_hardware_database (DataFile.parsed "\x7b\"a\":1\x7d"
        (Json.obj [("a", Json.num 1)]))).1.body ≠
      RBody.json "\x7b\"a\":1\x7d" := by decide

/-- C3 (amended): for every well-formed file (raw text `raw` parsing to the
document `j`), `GET /api/hardware` answers 200 with body exactly
`json.dumps(j)` — a semantically equivalent re-serialization of the file,
byte-identical to it only when the file is already in `json.dumps` normal
form. -/
theorem hardware_body_is_dumps (raw : String) (j : Json) :
    (serve_hardware_database (DataFile.parsed raw j)).1.status = 200 ∧
    (serve_hardware_database (DataFile.parsed raw j)).1.body = RBody.json (dumps j) :=
  ⟨rfl, rfl⟩

/-- C8: for `GET /api/hardware` and `GET /api/tips`, a missing file is
answered 404 with the named message, and any other read/parse error is
answered 500 with a generic fixed message while the error itself goes only
to the log (the response components on the right-hand sides are constants
that do not mention `e`, so the error never appears in the response). -/
theorem file_read_failure_policy (e : PyError) (hne : e ≠ PyError.fileNotFoundError) :
    serve_hardware_database (DataFile.readError PyError.fileNotFoundError) =
      (send_error 404 "Hardware database not found", []) ∧
    serve_configuration_tips (DataFile.readError PyError.fileNotFoundError) =
      (send_error 404 "Configuration tips database not found", []) ∧
    serve_hardware_database (DataFile.readError e) =
      (send_error 500 "Error loading hardware database", [LogEntry.hwServeError e]) ∧
    serve_configuration_tips (DataFile.readError e) =
      (send_error 500 "Error loading configuration tips", [LogEntry.tipsServeError e]) := by
  refine ⟨rfl, rfl, ?_, ?_⟩ <;> cases e <;> first | exact absurd rfl hne | rfl

theorem file_read_failure_policy_witness :
    serve_hardware_database (DataFile.readError PyError.fileNotFoundError) =
      (send_error 404 "Hardware database not found", []) ∧
    serve_configuration_tips (DataFile.readError PyError.fileNotFoundError) =
      (send_error 404 "Configuration tips database not found", []) ∧
    serve_hardware_database (DataFile.readError (PyError.osError "Permission denied")) =
      (send_error 500 "Error loading hardware database",
       [LogEntry.hwServeError (PyError.osError "Permission denied")]) ∧
    serve_configuration_tips (DataFile.readError (PyError.osError "Permission denied")) =
      (send_error 500 "Error loading configuration tips",
       [LogEntry.tipsServeError (PyError.osError "Permission denied")]) :=
  file_read_failure_policy (PyError.osError "Permission denied") (by decide)

theorem exc_ok_bind {α β : Type} (a : α) (f : α → Except PyError β) :
    (Except.ok a >>= f : Except PyError β) = f a := rfl

theorem pyGet_of_pySubscript {x : Json} {k : String} {v : Json} (d : Json)
    (h : pySubscript x k = Except.ok v) : pyGet x k d = Except.ok v := by
  cases x
  case obj kvs =>
    simp only [pySubscript] at h
    cases ha : assoc kvs k with
    | none => rw [ha] at h; simp at h
    | some w =>
      rw [ha] at h
      injection h with hv
      subst hv
      simp [pyGet, assocD, ha]
  all_goals simp [pySubscript] at h

/-- C2: for every pair of well-formed documents whose `statistics` blocks
carry numeric `total_hardware`/`total_tips` and string `last_updated`
values, `GET /api/statistics` answers 200 with a combined object whose
`combined.total_entries` is the sum `a + b` and whose
`combined.last_updated` is the maximum of the two timestamps under
lexicographic (code-point) string comparison — timestamps are never parsed
as dates. -/
theorem statistics_combined_totals
    (raw1 raw2 : String) (h t hs ts : Json) (a b : Int) (s1 s2 : String)
    (hsub1 : pySubscript h "statistics" = Except.ok hs)
    (hsub2 : pySubscript t "statistics" = Except.ok ts)
    (hth : pySubscript hs "total_hardware" = Except.ok (Json.num a))
    (htt : pySubscript ts "total_tips" = Except.ok (Json.num b))
    (hlh : pySubscript hs "last_updated" = Except.ok (Json.str s1))
    (hlt : pySubscript ts "last_updated" = Except.ok (Json.str s2)) :
    combined_stats h t = Except.ok (Json.obj
      [("hardware", hs), ("tips", ts),
       ("combined", Json.obj
         [("total_entries", Json.num (a + b)),
          ("last_updated", Json.str (if pyStrLt s1 s2 then s2 else s1))])]) ∧
    serve_statistics (DataFile.parsed raw1 h) (DataFile.parsed raw2 t) =
      (jsonResponse (dumps (Json.obj
        [("hardware", hs), ("tips", ts),
         ("combined", Json.obj
           [("total_entries", Json.num (a + b)),
            ("last_updated", Json.str (if pyStrLt s1 s2 then s2 else s1))])])), []) ∧
    (jsonResponse (dumps (Json.obj
        [("hardware", hs), ("tips", ts),
         ("combined", Json.obj
           [("total_entries", Json.num (a + b)),
            ("last_updated", Json.str (if pyStrLt s1 s2 then s2 else s1))])]))).status = 200 := by
  have g1 := pyGet_of_pySubscript (Json.obj []) hsub1
  have g2 := pyGet_of_pySubscript (Json.obj []) hsub2
  have hcs : combined_stats h t = Except.ok (Json.obj
      [("hardware", hs), ("tips", ts),
       ("combined", Json.obj
         [("total_entries", Json.num (a + b)),
          ("last_updated", Json.str (if pyStrLt s1 s2 then s2 else s1))])]) := by
    simp only [combined_stats, g1, g2, hsub1, hsub2, hth, htt, hlh, hlt,
               exc_ok_bind, pyAdd, toIntNum, pyMax]
  refine ⟨hcs, ?_, rfl⟩
  simp only [serve_statistics, hcs]

theorem statistics_combined_totals_witness :
    combined_stats
        (Json.obj [("statistics", Json.obj
          [("total_hardware", Json.num 150), ("last_updated", Json.str "2025-01-01")])])
        (Json.obj [("statistics", Json.obj
          [("total_tips", Json.num 25), ("last_updated", Json.str "2025-06-30")])]) =
      Except.ok (Json.obj
        [("hardware", Json.obj
           [("total_hardware", Json.num 150), ("last_updated", Json.str "2025-01-01")]),
         ("tips", Json.obj
           [("total_tips", Json.num 25), ("last_updated", Json.str "2025-06-30")]),
         ("combined", Json.obj
           [("total_entries", Json.num (150 + 25)),
            ("last_updated", Json.str
              (if pyStrLt "2025-01-01" "2025-06-30" then "2025-06-30" else "2025-01-01"))])]) ∧
    serve_statistics
        (DataFile.parsed "h" (Json.obj [("statistics", Json.obj
          [("total_hardware", Json.num 150), ("last_updated", Json.str "2025-01-01")])]))
        (DataFile.parsed "t" (Json.obj [("statistics", Json.obj
          [("total_tips", Json.num 25), ("last_updated", Json.str "2025-06-30")])])) =
      (jsonResponse (dumps (Json.obj
        [("hardware", Json.obj
           [("total_hardware", Json.num 150), ("last_updated", Json.str "2025-01-01")]),
         ("tips", Json.obj
           [("total_tips", Json.num 25), ("last_updated", Json.str "2025-06-30")]),
         ("combined", Json.obj
           [("total_entries", Json.num (150 + 25)),
            ("last_updated", Json.str
              (if pyStrLt "2025-01-01" "2025-06-30" then "2025-06-30" else "2025-01-01"))])])), []) ∧
    (jsonResponse (dumps (Json.obj
        [("hardware", Json.obj
           [("total_hardware", Json.num 150), ("last_updated", Json.str "2025-01-01")]),
         ("tips", Json.obj
           [("total_tips", Json.num 25), ("last_updated", Json.str "2025-06-30")]),
         ("combined", Json.obj
           [("total_entries", Json.num (150 + 25)),
            ("last_updated", Json.str
              (if pyStrLt "2025-01-01" "2025-06-30" then "2025-06-30" else "2025-01-01"))])]))).status = 200 :=
  statistics_combined_totals "h" "t" _ _ _ _ 150 25 "2025-01-01" "2025-06-30"
    (by rfl) (by rfl) (by rfl) (by rfl) (by rfl) (by rfl)

/-- C10: the query string never influences a GET response — two GET request
targets with the same path component are dispatched to the same handler and
produce the same response (status, headers, body and log alike) against the
same file-system state.  In particular `/api/hardware?x=1` and
`/api/hardware` are handled identically. -/
theorem get_ignores_query (fs : ServerFS) (url1 url2 : String)
    (h : urlparse_path url1 = urlparse_path url2) :
    do_GET fs url1 = do_GET fs url2 := by
  unfold do_GET super_do_GET
  rw [h]

theorem get_ignores_query_witness :
    do_GET fsEmpty "/api/hardware?x=1" = do_GET fsEmpty "/api/hardware" :=
  get_ignores_query fsEmpty "/api/hardware?x=1" "/api/hardware" (by rfl)
